import Mathlib

/-!
Verification of the response-caching interception layer
(`proxy/plugin/cache/base.py`) of pasccom/proxy.py.

The interception controller `BaseCacheResponsesPlugin` is embedded shallowly:
each lifecycle hook becomes a Lean function from the plugin state, the store
oracle and its state, and the hook argument, to a `HookOut` record collecting
the Python return value (or a propagated `AssertionError`), the updated plugin
and store states, the responses enqueued to the client, and the store
operations invoked, in order.  Byte strings are modelled as `String`.
-/

/-- Byte strings (`bytes` in the source) are modelled as `String`. -/
abbrev Bytes := String

/-- A raw response-body chunk (`memoryview` in the source). -/
abbrev Chunk := String

/-- Modelled from the spec: `httpParserTypes` (proxy/http/parser.py, absent
from src/) tags a parsed message as request-kind, response-kind, or another
kind ("any other message kind", spec §4.1); the tags are distinct numbers. -/
def httpParserTypes.REQUEST_PARSER : Nat := 1

/-- Modelled from the spec: the response-kind tag of `httpParserTypes`. -/
def httpParserTypes.RESPONSE_PARSER : Nat := 2

/-- Modelled from the spec: the chunk tag of `httpParserTypes`, one message
kind that is neither request-kind nor response-kind. -/
def httpParserTypes.CHUNK_PARSER : Nat := 3

/-- Modelled from the spec: `httpMethods.CONNECT` (proxy/http/methods.py,
absent from src/), the method of a tunnel-establishment request. -/
def httpMethods.CONNECT : Bytes := "CONNECT"

/-- Modelled from the spec: `PROXY_AGENT_HEADER_VALUE`
(proxy/common/constants.py, absent from src/), the value of the "fixed
server-identification header" (spec §6); only its fixedness matters here. -/
def PROXY_AGENT_HEADER_VALUE : Bytes := "proxy.py v2.x"

/-- Modelled from the spec: `httpStatusCodes.BAD_GATEWAY`. -/
def httpStatusCodes.BAD_GATEWAY : Nat := 502

/-- Modelled from the spec: `httpStatusCodes.INTERNAL_SERVER_ERROR`. -/
def httpStatusCodes.INTERNAL_SERVER_ERROR : Nat := 500

/-- Modelled from the spec: a parsed HTTP message (`HttpParser`,
proxy/http/parser.py, absent from src/), restricted to the fields the
controller reads: the message-kind tag `type`, the request `method`, `host`,
`port` and `path` (used only for logging), and the cached response fields
"(status, reason, headers, body)" (spec §4.1).  `headers` lists the
`(original-key, value)` pairs of `msg.headers.values()`; `code` is the
optional numeric status. -/
structure HttpParser where
  type : Nat
  method : Bytes
  host : Option Bytes
  port : Option Nat
  path : Option Bytes
  code : Option Nat
  reason : Option Bytes
  headers : List (Bytes × Bytes)
  body : Option Bytes
deriving DecidableEq

/-- Modelled from the spec: the Store Capability Contract (§4.2;
proxy/plugin/cache/store/base.py is absent from src/).  A store is an oracle
over an abstract state `σ`; `is_cached` and `cache_request` may raise
(`Except.error`), `cache_response_chunk` and `close` must not (spec §4.2). -/
structure CacheStore (σ : Type) where
  is_cached : σ → HttpParser → Except Unit Bool × σ
  cache_request : σ → HttpParser → Except Unit HttpParser × σ
  cache_response_chunk : σ → Chunk → Chunk × σ
  close : σ → σ
deriving Inhabited

/-- One store operation invoked by the controller, recorded in call order. -/
inductive StoreCall where
  | isCached (req : HttpParser)
  | cacheRequest (req : HttpParser)
  | cacheResponseChunk (chunk : Chunk)
  | closeStore
deriving DecidableEq

/-- Modelled from the spec: the response built by `build_http_response`
(proxy/common/utils.py, absent from src/).  HTTP serialization is out of scope
(spec §1: the core "hands back ... a fully serialized response buffer"), so a
built response is modelled as the record of the fields handed to the
builder. -/
structure BuiltResponse where
  code : Nat
  reason : Option Bytes
  headers : List (Bytes × Bytes)
  body : Option Bytes
deriving DecidableEq

/-- Modelled from the spec: `build_http_response` packages the status code,
optional reason, header dict and optional body it is given. -/
def build_http_response (code : Nat) (reason : Option Bytes)
    (headers : List (Bytes × Bytes)) (body : Option Bytes) : BuiltResponse :=
  ⟨code, reason, headers, body⟩

/-- Python dict insertion: an existing key is updated in place (insertion
order kept), a new key is appended. -/
def dictInsert (d : List (Bytes × Bytes)) (kv : Bytes × Bytes) :
    List (Bytes × Bytes) :=
  if d.any (fun p => p.1 == kv.1) then
    d.map (fun p => if p.1 == kv.1 then kv else p)
  else
    d ++ [kv]

/-- The dict comprehension over header pairs in `handle_client_request`
(`\x7bk: v for k, v in msg.headers.values()\x7d`). -/
def dictOfPairs (l : List (Bytes × Bytes)) : List (Bytes × Bytes) :=
  l.foldl dictInsert []

/-- Whether a header dict contains the key `k`. -/
def hasHeader (hs : List (Bytes × Bytes)) (k : Bytes) : Bool :=
  hs.any (fun p => p.1 == k)

/-- The value stored under key `k` in a header dict, if any. -/
def headerValue (hs : List (Bytes × Bytes)) (k : Bytes) : Option Bytes :=
  (hs.find? (fun p => p.1 == k)).map (fun p => p.2)

/-- The instance attributes of `BaseCacheResponsesPlugin` the hooks touch:
whether `self.store` is set, and the per-connection snapshots
`self.__enabled` / `self.__local` (both `None` after `__init__`). -/
structure PluginState where
  store : Bool
  enabledSnapshot : Option Bool
  localSnapshot : Option Bool
deriving DecidableEq

/-- `BaseCacheResponsesPlugin.__init__`: no store handle, both snapshots
unset. -/
def PluginState.init : PluginState := ⟨false, none, none⟩

/-- `set_store`: installs a store handle. -/
def set_store (p : PluginState) : PluginState := { p with store := true }

/-- The process-wide toggle flags: the class-level events `enabled`
(default set) and `local` (default clear).  `local` is a reserved word in
Lean, so the spec's name `localOnly` is used for that field. -/
structure GlobalFlags where
  enabled : Bool
  localOnly : Bool
deriving DecidableEq

/-- The default toggle values (`EnabledDescriptor(True)` /
`EnabledDescriptor(False)`). -/
def GlobalFlags.default : GlobalFlags := ⟨true, false⟩

/-- Outcome of one hook invocation: the Python return value, or
`Except.error ()` for a propagated `AssertionError`; the plugin and store
states afterwards; the responses enqueued to the client via `client.queue`;
and the store operations invoked, in order. -/
structure HookOut (σ : Type) (α : Type) where
  result : Except Unit α
  plugin : PluginState
  store : σ
  queued : List BuiltResponse
  calls : List StoreCall

/-- The synthesized 502 response of `handle_client_request` (built for a
request-kind store result under `localOnly`). -/
def badGatewayResponse : BuiltResponse :=
  build_http_response httpStatusCodes.BAD_GATEWAY (some "Bad gateway")
    [("Server", PROXY_AGENT_HEADER_VALUE), ("Connection", "close")]
    (some "Ressource has not been cached yet. Please allow upstream.")

/-- The synthesized 500 response of the fail-open fallback in
`handle_client_request`. -/
def internalServerErrorResponse : BuiltResponse :=
  build_http_response httpStatusCodes.INTERNAL_SERVER_ERROR
    (some "Internal server error")
    [("Server", PROXY_AGENT_HEADER_VALUE), ("Connection", "close")]
    none

/-- The replay of a cached response-kind message `msg`
(`int(msg.code) if msg.code is not None else 0`, `msg.reason`, the dict of
`msg.headers.values()`, `msg.body`). -/
def replayResponse (msg : HttpParser) : BuiltResponse :=
  build_http_response (match msg.code with | some c => c | none => 0)
    msg.reason (dictOfPairs msg.headers) msg.body

/-- `before_upstream_connection`: captures the snapshot from the toggle
flags, passes-through when disabled, asserts the store handle, lets CONNECT
requests through unless `local`, and otherwise suppresses the upstream
connection exactly when `is_cached` reports a hit, swallowing any
`is_cached` exception. -/
def before_upstream_connection {σ : Type} (flags : GlobalFlags)
    (cs : CacheStore σ) (p : PluginState) (s : σ) (request : HttpParser) :
    HookOut σ (Option HttpParser) :=
  let p' : PluginState :=
    { p with enabledSnapshot := some flags.enabled,
             localSnapshot := some flags.localOnly }
  if !flags.enabled then
    ⟨.ok (some request), p', s, [], []⟩
  else if !p'.store then
    ⟨.error (), p', s, [], []⟩
  else if request.method == httpMethods.CONNECT then
    ⟨.ok (if !flags.localOnly then some request else none), p', s, [], []⟩
  else
    match cs.is_cached s request with
    | (.ok true, s') => ⟨.ok none, p', s', [], [.isCached request]⟩
    | (.ok false, s') => ⟨.ok (some request), p', s', [], [.isCached request]⟩
    | (.error _, s') => ⟨.ok (some request), p', s', [], [.isCached request]⟩

/-- The fail-open fallback of `handle_client_request`: re-query `is_cached`,
enqueue a 500 on a hit, swallow any exception, and return the original
request.  `calls` carries the store operations already invoked. -/
def cacheFaultFallback {σ : Type} (cs : CacheStore σ) (p : PluginState)
    (s : σ) (request : HttpParser) (calls : List StoreCall) :
    HookOut σ (Option HttpParser) :=
  match cs.is_cached s request with
  | (.ok true, s') =>
      ⟨.ok (some request), p, s', [internalServerErrorResponse],
        calls ++ [.isCached request]⟩
  | (.ok false, s') => ⟨.ok (some request), p, s', [], calls ++ [.isCached request]⟩
  | (.error _, s') => ⟨.ok (some request), p, s', [], calls ++ [.isCached request]⟩

/-- `handle_client_request`: asserts the snapshot is set, passes-through
when disabled, asserts the store handle, lets CONNECT requests through, and
otherwise dispatches on the kind of the message `cache_request` returns: a
request-kind message is returned upstream (or answered with the 502 under
`local`), a response-kind message is replayed to the client, and any other
kind (the raised `ValueError`) or a `cache_request` exception reaches the
fail-open fallback. -/
def handle_client_request {σ : Type} (cs : CacheStore σ) (p : PluginState)
    (s : σ) (request : HttpParser) : HookOut σ (Option HttpParser) :=
  match p.enabledSnapshot, p.localSnapshot with
  | none, _ => ⟨.error (), p, s, [], []⟩
  | some _, none => ⟨.error (), p, s, [], []⟩
  | some en, some lo =>
    if !en then
      ⟨.ok (some request), p, s, [], []⟩
    else if !p.store then
      ⟨.error (), p, s, [], []⟩
    else if request.method == httpMethods.CONNECT then
      ⟨.ok (some request), p, s, [], []⟩
    else
      match cs.cache_request s request with
      | (.ok msg, s₁) =>
        if msg.type == httpParserTypes.REQUEST_PARSER then
          if lo then
            ⟨.ok none, p, s₁, [badGatewayResponse], [.cacheRequest request]⟩
          else
            ⟨.ok (some msg), p, s₁, [], [.cacheRequest request]⟩
        else if msg.type == httpParserTypes.RESPONSE_PARSER then
          ⟨.ok none, p, s₁, [replayResponse msg], [.cacheRequest request]⟩
        else
          cacheFaultFallback cs p s₁ request [.cacheRequest request]
      | (.error _, s₁) =>
          cacheFaultFallback cs p s₁ request [.cacheRequest request]

/-- `handle_upstream_chunk`: asserts the snapshot is set, passes the chunk
through when disabled, asserts the store handle, and otherwise relays the
chunk through `cache_response_chunk`. -/
def handle_upstream_chunk {σ : Type} (cs : CacheStore σ) (p : PluginState)
    (s : σ) (chunk : Chunk) : HookOut σ Chunk :=
  match p.enabledSnapshot, p.localSnapshot with
  | none, _ => ⟨.error (), p, s, [], []⟩
  | some _, none => ⟨.error (), p, s, [], []⟩
  | some en, some _ =>
    if !en then
      ⟨.ok chunk, p, s, [], []⟩
    else if !p.store then
      ⟨.error (), p, s, [], []⟩
    else
      let r := cs.cache_response_chunk s chunk
      ⟨.ok r.1, p, r.2, [], [.cacheResponseChunk chunk]⟩

/-- `on_upstream_connection_close`: asserts the snapshot is set, is a no-op
when disabled, asserts the store handle, and otherwise closes the store. -/
def on_upstream_connection_close {σ : Type} (cs : CacheStore σ)
    (p : PluginState) (s : σ) : HookOut σ Unit :=
  match p.enabledSnapshot, p.localSnapshot with
  | none, _ => ⟨.error (), p, s, [], []⟩
  | some _, none => ⟨.error (), p, s, [], []⟩
  | some en, some _ =>
    if !en then
      ⟨.ok (), p, s, [], []⟩
    else if !p.store then
      ⟨.error (), p, s, [], []⟩
    else
      ⟨.ok (), p, cs.close s, [], [.closeStore]⟩

/-- Relays the upstream chunks in order through `handle_upstream_chunk`,
stopping if a hook raises; returns the final store state, the store calls,
and whether all chunks were relayed. -/
def chunksRun {σ : Type} (cs : CacheStore σ) (p : PluginState) (s : σ) :
    List Chunk → σ × List StoreCall × Bool
  | [] => (s, [], true)
  | c :: rest =>
    let out := handle_upstream_chunk cs p s c
    match out.result with
    | .error _ => (out.store, out.calls, false)
    | .ok _ =>
      let r := chunksRun cs p out.store rest
      (r.1, out.calls ++ r.2.1, r.2.2)

/-- Modelled from the spec: the host engine (out of scope, §1) drives one
connection through the fixed hook order of §2/§4.1 — pre-connect,
on-client-request, then, when both request hooks permitted the upstream leg,
one `handle_upstream_chunk` per upstream chunk in receive order followed by
`on_upstream_connection_close`.  Returns the store operations invoked over
the connection, in order. -/
def connection_run {σ : Type} (flags : GlobalFlags) (cs : CacheStore σ)
    (p : PluginState) (s : σ) (request : HttpParser) (chunks : List Chunk) :
    List StoreCall :=
  let b := before_upstream_connection flags cs p s request
  match b.result with
  | .error _ => b.calls
  | .ok rb =>
    let h := handle_client_request cs b.plugin b.store request
    match h.result with
    | .error _ => b.calls ++ h.calls
    | .ok rc =>
      match rb, rc with
      | some _, some _ =>
        let r := chunksRun cs h.plugin h.store chunks
        if r.2.2 then
          let cl := on_upstream_connection_close cs h.plugin r.1
          b.calls ++ h.calls ++ r.2.1 ++ cl.calls
        else
          b.calls ++ h.calls ++ r.2.1
      | _, _ => b.calls ++ h.calls

/-- Is a recorded store call a `cache_request` call? -/
def StoreCall.isCacheRequestCall : StoreCall → Bool
  | .cacheRequest _ => true
  | _ => false

/-- Is a recorded store call a `cache_response_chunk` call? -/
def StoreCall.isChunkCall : StoreCall → Bool
  | .cacheResponseChunk _ => true
  | _ => false

/-- A concrete plain GET request (method `GET`, so not CONNECT; parsed as a
request-kind message). -/
def getRequest : HttpParser :=
  { type := httpParserTypes.REQUEST_PARSER
    method := "GET"
    host := some "example.test"
    port := some 80
    path := some "/get"
    code := none
    reason := none
    headers := [("Host", "example.test")]
    body := none }

/-- A concrete CONNECT request. -/
def connectRequest : HttpParser :=
  { type := httpParserTypes.REQUEST_PARSER
    method := httpMethods.CONNECT
    host := some "example.test"
    port := some 443
    path := some "example.test:443"
    code := none
    reason := none
    headers := []
    body := none }

/-- A concrete cached response-kind message (a previously stored 200). -/
def cachedResponseMsg : HttpParser :=
  { type := httpParserTypes.RESPONSE_PARSER
    method := ""
    host := none
    port := none
    path := none
    code := some 200
    reason := some "OK"
    headers := [("Content-Type", "text/plain")]
    body := some "Response From Cache" }

/-- A stateless store with no cache entries: `is_cached` reports a miss and
`cache_request` hands the request back as the pass-through directive. -/
def emptyStore : CacheStore Unit :=
  { is_cached := fun s _ => (.ok false, s)
    cache_request := fun s r => (.ok r, s)
    cache_response_chunk := fun s c => (c, s)
    close := fun s => s }

/-- A stateless store holding `cachedResponseMsg`: `is_cached` reports a hit
and `cache_request` resolves to the cached response-kind message. -/
def cachedStore : CacheStore Unit :=
  { is_cached := fun s _ => (.ok true, s)
    cache_request := fun s _ => (.ok cachedResponseMsg, s)
    cache_response_chunk := fun s c => (c, s)
    close := fun s => s }

/-- A faulty store: `is_cached` and `cache_request` raise. -/
def faultyStore : CacheStore Unit :=
  { is_cached := fun s _ => (.error (), s)
    cache_request := fun s _ => (.error (), s)
    cache_response_chunk := fun s c => (c, s)
    close := fun s => s }

/-- C2: when the per-connection `enabled` value is false (in the toggle flags
for the pre-connect hook, which captures it; in the snapshot for the later
hooks), every hook returns its input unchanged or is a no-op, leaves the
store state untouched, enqueues nothing, and invokes no store operation,
regardless of store state. -/
theorem disabled_hooks_pass_through {σ : Type} (flags : GlobalFlags)
    (cs : CacheStore σ) (p : PluginState) (s : σ) (request : HttpParser)
    (chunk : Chunk) (lo : Bool)
    (hen : p.enabledSnapshot = some false) (hlo : p.localSnapshot = some lo) :
    (flags.enabled = false →
      (before_upstream_connection flags cs p s request).result = .ok (some request)
      ∧ (before_upstream_connection flags cs p s request).store = s
      ∧ (before_upstream_connection flags cs p s request).queued = []
      ∧ (before_upstream_connection flags cs p s request).calls = [])
    ∧ (handle_client_request cs p s request).result = .ok (some request)
    ∧ (handle_client_request cs p s request).store = s
    ∧ (handle_client_request cs p s request).queued = []
    ∧ (handle_client_request cs p s request).calls = []
    ∧ (handle_upstream_chunk cs p s chunk).result = .ok chunk
    ∧ (handle_upstream_chunk cs p s chunk).store = s
    ∧ (handle_upstream_chunk cs p s chunk).queued = []
    ∧ (handle_upstream_chunk cs p s chunk).calls = []
    ∧ (on_upstream_connection_close cs p s).result = .ok ()
    ∧ (on_upstream_connection_close cs p s).store = s
    ∧ (on_upstream_connection_close cs p s).queued = []
    ∧ (on_upstream_connection_close cs p s).calls = [] := by
  refine ⟨fun hf => ?_, ?_⟩
  · simp [before_upstream_connection, hf]
  · simp [handle_client_request, handle_upstream_chunk,
      on_upstream_connection_close, hen, hlo]

/-- C2 witness: with the snapshot captured as disabled, the client-request
hook passes the concrete GET request through and makes no store call. -/
theorem disabled_hooks_pass_through_witness :
    (handle_client_request emptyStore ⟨true, some false, some false⟩ () getRequest).result
      = .ok (some getRequest)
    ∧ (handle_client_request emptyStore ⟨true, some false, some false⟩ () getRequest).calls = []
    ∧ (before_upstream_connection ⟨false, false⟩ emptyStore ⟨true, some false, some false⟩ () getRequest).result
      = .ok (some getRequest) := by
  have h := disabled_hooks_pass_through (σ := Unit) ⟨false, false⟩ emptyStore
    ⟨true, some false, some false⟩ () getRequest "c" false rfl rfl
  exact ⟨h.2.1, h.2.2.2.2.1, (h.1 rfl).1⟩

/-- C7: before the per-connection snapshot has been set (the state left by
`__init__`), the client-request, upstream-chunk and upstream-close hooks all
raise an assertion error instead of returning a value. -/
theorem uninitialized_hooks_raise {σ : Type} (cs : CacheStore σ)
    (p : PluginState) (s : σ) (request : HttpParser) (chunk : Chunk)
    (hen : p.enabledSnapshot = none) (_hlo : p.localSnapshot = none) :
    (handle_client_request cs p s request).result = .error ()
    ∧ (handle_upstream_chunk cs p s chunk).result = .error ()
    ∧ (on_upstream_connection_close cs p s).result = .error () := by
  simp [handle_client_request, handle_upstream_chunk,
    on_upstream_connection_close, hen]

/-- C7 witness: on the freshly initialized plugin (even with a store
installed), each of the three later hooks raises. -/
theorem uninitialized_hooks_raise_witness :
    (handle_client_request emptyStore (set_store PluginState.init) () getRequest).result = .error ()
    ∧ (handle_upstream_chunk emptyStore (set_store PluginState.init) () "c").result = .error ()
    ∧ (on_upstream_connection_close emptyStore (set_store PluginState.init) ()).result = .error () :=
  uninitialized_hooks_raise emptyStore (set_store PluginState.init) () getRequest "c" rfl rfl

/-- C8: the pre-connect hook captures the per-connection snapshot from the
process-wide toggles, and none of the other three hooks ever modifies the
plugin state, so the snapshot taken at the first hook invocation is reused
unchanged by every subsequent hook on the connection even if the global
toggles change mid-connection (the later hooks do not read the toggles at
all). -/
theorem snapshot_once_per_connection {σ : Type} (flags : GlobalFlags)
    (cs : CacheStore σ) (p : PluginState) (s : σ) (request : HttpParser)
    (chunk : Chunk) :
    (before_upstream_connection flags cs p s request).plugin.enabledSnapshot
      = some flags.enabled
    ∧ (before_upstream_connection flags cs p s request).plugin.localSnapshot
      = some flags.localOnly
    ∧ (before_upstream_connection flags cs p s request).plugin.store = p.store
    ∧ (handle_client_request cs p s request).plugin = p
    ∧ (handle_upstream_chunk cs p s chunk).plugin = p
    ∧ (on_upstream_connection_close cs p s).plugin = p := by
  refine ⟨?_, ?_, ?_, ?_, ?_, ?_⟩ <;>
    [skip; skip; skip; skip; skip; skip] <;>
    first
    | (unfold before_upstream_connection
       dsimp only
       repeat' split <;> try rfl)
    | (unfold handle_client_request cacheFaultFallback
       repeat' split <;> try rfl)
    | (unfold handle_upstream_chunk
       repeat' split <;> try rfl)
    | (unfold on_upstream_connection_close
       repeat' split <;> try rfl)

/-- C3: with caching enabled (and a store installed), the pre-connect hook
returns the CONNECT request unchanged unless `local` is set (then `none`),
suppresses the upstream connection (`none`) for a non-CONNECT request on a
cache hit, and returns a non-CONNECT request unchanged on a miss or when
`is_cached` raises (the fault is swallowed, never propagated). -/
theorem before_upstream_connection_decision {σ : Type} (flags : GlobalFlags)
    (cs : CacheStore σ) (p : PluginState) (s : σ) (request : HttpParser)
    (hen : flags.enabled = true) (hst : p.store = true) :
    (request.method = httpMethods.CONNECT → flags.localOnly = false →
      (before_upstream_connection flags cs p s request).result = .ok (some request))
    ∧ (request.method = httpMethods.CONNECT → flags.localOnly = true →
      (before_upstream_connection flags cs p s request).result = .ok none)
    ∧ (request.method ≠ httpMethods.CONNECT → (cs.is_cached s request).1 = .ok true →
      (before_upstream_connection flags cs p s request).result = .ok none)
    ∧ (request.method ≠ httpMethods.CONNECT → (cs.is_cached s request).1 = .ok false →
      (before_upstream_connection flags cs p s request).result = .ok (some request))
    ∧ (request.method ≠ httpMethods.CONNECT → (cs.is_cached s request).1 = .error () →
      (before_upstream_connection flags cs p s request).result = .ok (some request)) := by
  refine ⟨fun hm hl => ?_, fun hm hl => ?_, fun hm hc => ?_, fun hm hc => ?_, fun hm hc => ?_⟩
  · simp [before_upstream_connection, hen, hst, hm, hl]
  · simp [before_upstream_connection, hen, hst, hm, hl]
  · rcases hq : cs.is_cached s request with ⟨r, s'⟩
    rw [hq] at hc; simp only at hc; subst hc
    simp [before_upstream_connection, hen, hst, beq_iff_eq, hm, hq]
  · rcases hq : cs.is_cached s request with ⟨r, s'⟩
    rw [hq] at hc; simp only at hc; subst hc
    simp [before_upstream_connection, hen, hst, beq_iff_eq, hm, hq]
  · rcases hq : cs.is_cached s request with ⟨r, s'⟩
    rw [hq] at hc; simp only at hc; subst hc
    simp [before_upstream_connection, hen, hst, beq_iff_eq, hm, hq]

/-- C3 witness: enabled, store installed, non-CONNECT request, miss reported
by the store: the request is returned unchanged. -/
theorem before_upstream_connection_decision_witness :
    getRequest.method ≠ httpMethods.CONNECT
    ∧ (before_upstream_connection ⟨true, false⟩ emptyStore ⟨true, none, none⟩ () getRequest).result
        = .ok (some getRequest)
    ∧ (before_upstream_connection ⟨true, true⟩ emptyStore ⟨true, none, none⟩ () connectRequest).result
        = .ok none := by
  refine ⟨by decide, ?_, ?_⟩
  · exact (before_upstream_connection_decision ⟨true, false⟩ emptyStore
      ⟨true, none, none⟩ () getRequest rfl rfl).2.2.2.1 (by decide) rfl
  · exact (before_upstream_connection_decision ⟨true, true⟩ emptyStore
      ⟨true, none, none⟩ () connectRequest rfl rfl).2.1 rfl rfl

/-- C10: whenever the effective `enabled` value is true, every hook asserts
the store handle and raises when none is set — even on paths that make no
store call, such as the pre-connect hook or a CONNECT request in the
client-request hook — while with `enabled` false every hook completes
without a store handle. -/
theorem store_handle_required_when_enabled {σ : Type} (flags : GlobalFlags)
    (cs : CacheStore σ) (p : PluginState) (s : σ) (request : HttpParser)
    (chunk : Chunk) (lo : Bool) :
    (flags.enabled = true → p.store = false →
      (before_upstream_connection flags cs p s request).result = .error ())
    ∧ (flags.enabled = false →
      (before_upstream_connection flags cs p s request).result = .ok (some request))
    ∧ (p.enabledSnapshot = some true → p.localSnapshot = some lo → p.store = false →
      (handle_client_request cs p s request).result = .error ())
    ∧ (p.enabledSnapshot = some false → p.localSnapshot = some lo →
      (handle_client_request cs p s request).result = .ok (some request))
    ∧ (p.enabledSnapshot = some true → p.localSnapshot = some lo → p.store = false →
      (handle_upstream_chunk cs p s chunk).result = .error ())
    ∧ (p.enabledSnapshot = some false → p.localSnapshot = some lo →
      (handle_upstream_chunk cs p s chunk).result = .ok chunk)
    ∧ (p.enabledSnapshot = some true → p.localSnapshot = some lo → p.store = false →
      (on_upstream_connection_close cs p s).result = .error ())
    ∧ (p.enabledSnapshot = some false → p.localSnapshot = some lo →
      (on_upstream_connection_close cs p s).result = .ok ()) := by
  refine ⟨fun he hs => ?_, fun he => ?_, fun he hl hs => ?_, fun he hl => ?_,
    fun he hl hs => ?_, fun he hl => ?_, fun he hl hs => ?_, fun he hl => ?_⟩
  · simp [before_upstream_connection, he, hs]
  · simp [before_upstream_connection, he]
  · simp [handle_client_request, he, hl, hs]
  · simp [handle_client_request, he, hl]
  · simp [handle_upstream_chunk, he, hl, hs]
  · simp [handle_upstream_chunk, he, hl]
  · simp [on_upstream_connection_close, he, hl, hs]
  · simp [on_upstream_connection_close, he, hl]

/-- C10 witness: with the enabled snapshot true and no store handle, the
client-request hook raises even for a CONNECT request (a path that would
make no store call), as does the pre-connect hook on the default flags; with
the snapshot disabled, the same storeless plugin completes. -/
theorem store_handle_required_when_enabled_witness :
    (handle_client_request emptyStore ⟨false, some true, some true⟩ () connectRequest).result
      = .error ()
    ∧ (before_upstream_connection GlobalFlags.default emptyStore PluginState.init () connectRequest).result
      = .error ()
    ∧ (handle_client_request emptyStore ⟨false, some false, some true⟩ () connectRequest).result
      = .ok (some connectRequest) := by
  refine ⟨?_, ?_, ?_⟩
  · exact (store_handle_required_when_enabled GlobalFlags.default emptyStore
      ⟨false, some true, some true⟩ () connectRequest "c" true).2.2.1 rfl rfl rfl
  · exact (store_handle_required_when_enabled GlobalFlags.default emptyStore
      PluginState.init () connectRequest "c" true).1 rfl rfl
  · exact (store_handle_required_when_enabled GlobalFlags.default emptyStore
      ⟨false, some false, some true⟩ () connectRequest "c" true).2.2.2.1 rfl rfl

/-- C4 counterexample: with `localOnly` captured true and no cache entry,
the enqueued 502 carries the literal body
"Ressource has not been cached yet. Please allow upstream." (sic, as spelled
in the source), not the body "Resource has not been cached yet. Please
allow upstream." the claim states. -/
theorem localOnly_uncached_body_counterexample :
    (handle_client_request emptyStore ⟨true, some true, some true⟩ () getRequest).queued.map
        BuiltResponse.body
      = [some "Ressource has not been cached yet. Please allow upstream."]
    ∧ (handle_client_request emptyStore ⟨true, some true, some true⟩ () getRequest).queued.map
        BuiltResponse.body
      ≠ [some "Resource has not been cached yet. Please allow upstream."] := by
  constructor
  · rfl
  · decide

/-- C4 (amended): for a non-CONNECT request with the enabled and localOnly
snapshots true and a request-kind `cache_request` result, the hook enqueues
exactly one 502 Bad Gateway response with reason "Bad gateway", the literal
body "Ressource has not been cached yet. Please allow upstream.", the
server-identification header and a `Connection: close` header, and returns
`none` (no upstream forwarding). -/
theorem localOnly_uncached_502 {σ : Type} (cs : CacheStore σ)
    (p : PluginState) (s s₁ : σ) (request msg : HttpParser)
    (hen : p.enabledSnapshot = some true) (hlo : p.localSnapshot = some true)
    (hst : p.store = true) (hm : request.method ≠ httpMethods.CONNECT)
    (hcr : cs.cache_request s request = (.ok msg, s₁))
    (hty : msg.type = httpParserTypes.REQUEST_PARSER) :
    (handle_client_request cs p s request).queued
      = [build_http_response 502 (some "Bad gateway")
          [("Server", PROXY_AGENT_HEADER_VALUE), ("Connection", "close")]
          (some "Ressource has not been cached yet. Please allow upstream.")]
    ∧ (handle_client_request cs p s request).result = .ok none
    ∧ (handle_client_request cs p s request).calls = [.cacheRequest request] := by
  have : (handle_client_request cs p s request)
      = ⟨.ok none, p, s₁, [badGatewayResponse], [.cacheRequest request]⟩ := by
    simp [handle_client_request, hen, hlo, hst, beq_iff_eq, hm, hcr, hty]
  rw [this]
  exact ⟨rfl, rfl, rfl⟩

/-- C4 witness: the concrete empty-store run enqueues exactly the 502 and
returns `none`. -/
theorem localOnly_uncached_502_witness :
    (handle_client_request emptyStore ⟨true, some true, some true⟩ () getRequest).queued
      = [build_http_response 502 (some "Bad gateway")
          [("Server", PROXY_AGENT_HEADER_VALUE), ("Connection", "close")]
          (some "Ressource has not been cached yet. Please allow upstream.")]
    ∧ (handle_client_request emptyStore ⟨true, some true, some true⟩ () getRequest).result
      = .ok none
    ∧ (handle_client_request emptyStore ⟨true, some true, some true⟩ () getRequest).calls
      = [.cacheRequest getRequest] :=
  localOnly_uncached_502 emptyStore ⟨true, some true, some true⟩ () () getRequest
    getRequest rfl rfl rfl (by decide) rfl rfl

/-- C5: for a non-CONNECT request with the enabled snapshot true and a
response-kind `cache_request` result `msg`, the hook enqueues exactly one
response built from the cached fields — `msg.code` defaulting to 0 when
absent, `msg.reason`, the dict of `msg.headers`, `msg.body` — and returns
`none`, so the client is served from cache with no upstream forwarding. -/
theorem cached_response_replay {σ : Type} (cs : CacheStore σ)
    (p : PluginState) (s s₁ : σ) (request msg : HttpParser) (lo : Bool)
    (hen : p.enabledSnapshot = some true) (hlo : p.localSnapshot = some lo)
    (hst : p.store = true) (hm : request.method ≠ httpMethods.CONNECT)
    (hcr : cs.cache_request s request = (.ok msg, s₁))
    (hty : msg.type = httpParserTypes.RESPONSE_PARSER) :
    (handle_client_request cs p s request).queued
      = [build_http_response (match msg.code with | some c => c | none => 0)
          msg.reason (dictOfPairs msg.headers) msg.body]
    ∧ (handle_client_request cs p s request).result = .ok none
    ∧ (handle_client_request cs p s request).calls = [.cacheRequest request] := by
  have : (handle_client_request cs p s request)
      = ⟨.ok none, p, s₁, [replayResponse msg], [.cacheRequest request]⟩ := by
    simp [handle_client_request, hen, hlo, hst, beq_iff_eq, hm, hcr, hty,
      httpParserTypes.REQUEST_PARSER, httpParserTypes.RESPONSE_PARSER]
  rw [this]
  exact ⟨rfl, rfl, rfl⟩

/-- C5 witness: the concrete cached-store run replays the cached 200
response ("Response From Cache") and returns `none`. -/
theorem cached_response_replay_witness :
    (handle_client_request cachedStore ⟨true, some true, some false⟩ () getRequest).queued
      = [build_http_response 200 (some "OK") [("Content-Type", "text/plain")]
          (some "Response From Cache")]
    ∧ (handle_client_request cachedStore ⟨true, some true, some false⟩ () getRequest).result
      = .ok none
    ∧ (handle_client_request cachedStore ⟨true, some true, some false⟩ () getRequest).calls
      = [.cacheRequest getRequest] :=
  cached_response_replay cachedStore ⟨true, some true, some false⟩ () () getRequest
    cachedResponseMsg false rfl rfl rfl (by decide) rfl rfl

/-- C6 counterexample: the cached-response replay run enqueues a synthesized
response whose headers are exactly the cached headers, which here contain no
server-identification header at all. -/
theorem replay_missing_server_header_counterexample :
    (handle_client_request cachedStore ⟨true, some true, some false⟩ () getRequest).queued.map
        (fun r => hasHeader r.headers "Server")
      = [false]
    ∧ (handle_client_request cachedStore ⟨true, some true, some false⟩ () getRequest).queued.length
      = 1 := by
  exact ⟨rfl, rfl⟩

/-- C6 (amended): every response the client-request hook enqueues is the
502, the 500, or the replay of a cached message; the 502 and 500 carry the
fixed server-identification header and a `Connection: close` header, while
the replay carries exactly the dict of the cached headers — so it carries
the server-identification header only when the cached headers do. -/
theorem synthesized_response_shapes {σ : Type} (cs : CacheStore σ)
    (p : PluginState) (s : σ) (request : HttpParser) (r : BuiltResponse)
    (hr : r ∈ (handle_client_request cs p s request).queued) :
    (r = badGatewayResponse ∨ r = internalServerErrorResponse
      ∨ ∃ msg, r = replayResponse msg)
    ∧ headerValue badGatewayResponse.headers "Server" = some PROXY_AGENT_HEADER_VALUE
    ∧ headerValue badGatewayResponse.headers "Connection" = some "close"
    ∧ headerValue internalServerErrorResponse.headers "Server" = some PROXY_AGENT_HEADER_VALUE
    ∧ headerValue internalServerErrorResponse.headers "Connection" = some "close"
    ∧ (∀ msg, (replayResponse msg).headers = dictOfPairs msg.headers) := by
  refine ⟨?_, rfl, rfl, rfl, rfl, fun msg => rfl⟩
  unfold handle_client_request cacheFaultFallback at hr
  repeat' split at hr
  all_goals simp only [List.mem_singleton, List.not_mem_nil] at hr
  all_goals
    first
    | exact hr.elim
    | exact Or.inl hr
    | exact Or.inr (Or.inl hr)
    | exact Or.inr (Or.inr ⟨_, hr⟩)

/-- C6 witness: applied to the 502 enqueued by the concrete local-only
empty-store run, the shape disjunction holds. -/
theorem synthesized_response_shapes_witness :
    badGatewayResponse = badGatewayResponse
      ∨ badGatewayResponse = internalServerErrorResponse
      ∨ ∃ msg, badGatewayResponse = replayResponse msg :=
  (synthesized_response_shapes emptyStore ⟨true, some true, some true⟩ ()
    getRequest badGatewayResponse (by decide)).1

/-- C1: with the snapshot enabled and a store installed, when
`cache_request` raises or returns a message of neither request-kind nor
response-kind, the client-request hook propagates no exception: it
re-queries `is_cached` (after `cache_request`, in that order), enqueues the
synthesized 500 exactly when the re-query reports a hit (a re-query fault
is swallowed), and returns the original request unchanged. -/
theorem client_request_fail_open {σ : Type} (cs : CacheStore σ)
    (p : PluginState) (s : σ) (request : HttpParser) (lo : Bool)
    (hen : p.enabledSnapshot = some true) (hlo : p.localSnapshot = some lo)
    (hst : p.store = true) (hm : request.method ≠ httpMethods.CONNECT)
    (hfault : (cs.cache_request s request).1 = .error ()
      ∨ ∃ msg, (cs.cache_request s request).1 = .ok msg
          ∧ msg.type ≠ httpParserTypes.REQUEST_PARSER
          ∧ msg.type ≠ httpParserTypes.RESPONSE_PARSER) :
    (handle_client_request cs p s request).result = .ok (some request)
    ∧ (handle_client_request cs p s request).calls
        = [.cacheRequest request, .isCached request]
    ∧ (handle_client_request cs p s request).queued
        = (match (cs.is_cached (cs.cache_request s request).2 request).1 with
           | .ok true => [internalServerErrorResponse]
           | _ => []) := by
  rcases hq : cs.cache_request s request with ⟨cr, s₁⟩
  rw [hq] at hfault
  simp only at hfault
  have hmain : handle_client_request cs p s request
      = cacheFaultFallback cs p s₁ request [.cacheRequest request] := by
    rcases hfault with h | ⟨msg, hmsg, h1, h2⟩
    · subst h
      simp [handle_client_request, hen, hlo, hst, beq_iff_eq, hm, hq]
    · subst hmsg
      simp [handle_client_request, hen, hlo, hst, beq_iff_eq, hm, hq, h1, h2]
  rw [hmain]
  rcases hq2 : cs.is_cached s₁ request with ⟨ic, s₂⟩
  rcases ic with e | b
  · simp [cacheFaultFallback, hq2]
  · rcases b with _ | _ <;> simp [cacheFaultFallback, hq2]

/-- C1 witness: on the store whose operations all raise, the hook swallows
both faults, enqueues nothing, records the `cache_request` call followed by
the `is_cached` re-query, and returns the original request. -/
theorem client_request_fail_open_witness :
    (handle_client_request faultyStore ⟨true, some true, some false⟩ () getRequest).result
      = .ok (some getRequest)
    ∧ (handle_client_request faultyStore ⟨true, some true, some false⟩ () getRequest).calls
      = [.cacheRequest getRequest, .isCached getRequest]
    ∧ (handle_client_request faultyStore ⟨true, some true, some false⟩ () getRequest).queued
      = [] :=
  client_request_fail_open faultyStore ⟨true, some true, some false⟩ ()
    getRequest false rfl rfl rfl (by decide) (Or.inl rfl)

/-- With the snapshot enabled and a store installed, relaying the upstream
chunks makes exactly one `cache_response_chunk` call per chunk, in receive
order, and no hook raises. -/
theorem chunksRun_calls {σ : Type} (cs : CacheStore σ) (p : PluginState)
    (hst : p.store = true) (hen : p.enabledSnapshot = some true) (lo : Bool)
    (hlo : p.localSnapshot = some lo) :
    ∀ (chunks : List Chunk) (s : σ),
      (chunksRun cs p s chunks).2.1 = chunks.map StoreCall.cacheResponseChunk
      ∧ (chunksRun cs p s chunks).2.2 = true := by
  intro chunks
  induction chunks with
  | nil => intro s; exact ⟨rfl, rfl⟩
  | cons c rest ih =>
    intro s
    have hout : handle_upstream_chunk cs p s c
        = ⟨.ok (cs.cache_response_chunk s c).1, p, (cs.cache_response_chunk s c).2,
           [], [.cacheResponseChunk c]⟩ := by
      simp [handle_upstream_chunk, hen, hlo, hst]
    simp [chunksRun, hout, ih]

/-- C9: for a non-CONNECT request with caching enabled, `local` clear and no
cache entry (`is_cached` misses and `cache_request` hands back the request
as a request-kind pass-through directive), the client-request hook returns
the request unchanged for upstream forwarding, and over the whole
connection the store receives exactly one `cache_request` call, placed
before every `cache_response_chunk` call. -/
theorem pass_through_recording_run {σ : Type} (flags : GlobalFlags)
    (cs : CacheStore σ) (p : PluginState) (s s₁ s₂ : σ) (request : HttpParser)
    (chunks : List Chunk)
    (hen : flags.enabled = true) (hlo : flags.localOnly = false)
    (hst : p.store = true) (hm : request.method ≠ httpMethods.CONNECT)
    (hty : request.type = httpParserTypes.REQUEST_PARSER)
    (hic : cs.is_cached s request = (.ok false, s₁))
    (hcr : cs.cache_request s₁ request = (.ok request, s₂)) :
    (handle_client_request cs
        { p with enabledSnapshot := some true, localSnapshot := some false }
        s₁ request).result
      = .ok (some request)
    ∧ connection_run flags cs p s request chunks
      = [.isCached request, .cacheRequest request]
          ++ chunks.map StoreCall.cacheResponseChunk ++ [.closeStore]
    ∧ (connection_run flags cs p s request chunks).countP StoreCall.isCacheRequestCall = 1
    ∧ ∃ t₁ t₂, connection_run flags cs p s request chunks = t₁ ++ t₂
        ∧ t₁.countP StoreCall.isCacheRequestCall = 1
        ∧ t₁.all (fun c => !c.isChunkCall) = true
        ∧ t₂.countP StoreCall.isCacheRequestCall = 0 := by
  have hb : before_upstream_connection flags cs p s request
      = ⟨.ok (some request),
         { p with enabledSnapshot := some true, localSnapshot := some false },
         s₁, [], [.isCached request]⟩ := by
    simp [before_upstream_connection, hen, hlo, hst, beq_iff_eq, hm, hic]
  have hc : handle_client_request cs
      { p with enabledSnapshot := some true, localSnapshot := some false } s₁ request
      = ⟨.ok (some request),
         { p with enabledSnapshot := some true, localSnapshot := some false },
         s₂, [], [.cacheRequest request]⟩ := by
    simp [handle_client_request, hst, beq_iff_eq, hm, hcr, hty]
  have hchunks := chunksRun_calls cs
    { p with enabledSnapshot := some true, localSnapshot := some false }
    hst rfl false rfl chunks
  have hclose : ∀ st : σ, (on_upstream_connection_close cs
      { p with enabledSnapshot := some true, localSnapshot := some false } st).calls
      = [StoreCall.closeStore] := by
    intro st
    simp [on_upstream_connection_close, hst]
  have hmap0 : (chunks.map StoreCall.cacheResponseChunk).countP
      StoreCall.isCacheRequestCall = 0 := by
    simp [List.countP_eq_zero, StoreCall.isCacheRequestCall]
  have hrun : connection_run flags cs p s request chunks
      = [.isCached request, .cacheRequest request]
          ++ chunks.map StoreCall.cacheResponseChunk ++ [.closeStore] := by
    simp [connection_run, hb, hc, (hchunks s₂).1, (hchunks s₂).2, hclose]
  refine ⟨by simp [hc], hrun, ?_, ?_⟩
  · rw [hrun]
    simp [List.countP_append, List.countP_cons, hmap0,
      StoreCall.isCacheRequestCall]
  · refine ⟨[.isCached request, .cacheRequest request],
      chunks.map StoreCall.cacheResponseChunk ++ [.closeStore], ?_, ?_, ?_, ?_⟩
    · rw [hrun, List.append_assoc]
    · simp [List.countP_cons, StoreCall.isCacheRequestCall]
    · simp [StoreCall.isChunkCall]
    · simp [List.countP_append, List.countP_cons, hmap0,
        StoreCall.isCacheRequestCall]

/-- C9 witness: a concrete two-chunk pass-through connection on the empty
store: the request is returned unchanged and the store sees the single
`cache_request` call before both chunk calls and the close. -/
theorem pass_through_recording_run_witness :
    (handle_client_request emptyStore ⟨true, some true, some false⟩ () getRequest).result
      = .ok (some getRequest)
    ∧ connection_run ⟨true, false⟩ emptyStore ⟨true, none, none⟩ () getRequest
        ["chunk1", "chunk2"]
      = [.isCached getRequest, .cacheRequest getRequest,
         .cacheResponseChunk "chunk1", .cacheResponseChunk "chunk2", .closeStore] := by
  have h := pass_through_recording_run ⟨true, false⟩ emptyStore ⟨true, none, none⟩
    () () () getRequest ["chunk1", "chunk2"] rfl rfl rfl (by decide) rfl rfl rfl
  exact ⟨h.1, h.2.1⟩
